import Mathlib

/-!
Verification development for the genie-us assignment-solver repository.

The development shallowly embeds the execution harness of the repository:
AssignmentSolver.execute_code (assignment_solver.py) and
AssignmentSolver.execute_code_and_capture (submit.py), together with the
submission-state check AssignmentSolver.check_submission_status and the
skip gate of the detect command (submit.py).

External process behaviour (subprocess.run) is abstracted by an oracle
mapping an argument vector and a timeout to one of four behaviours that
mirror the Python stdlib contract: the process completes with an exit code
and captured stdout/stderr; it exceeds the timeout (subprocess.run raises
subprocess.TimeoutExpired); the executable cannot be started (FileNotFoundError);
or some other Exception is raised.  Filesystem effects are modelled as the
list of file paths present, and every spawned argument vector is recorded
in a trace so that statements such as "the run step is never attempted"
can be expressed.
-/

/-- Result of a completed process, as produced by subprocess.run:
exit code plus captured stdout and stderr (text mode). -/
structure RunResult where
  exitCode : Int
  stdout : String
  stderr : String
deriving DecidableEq, Repr

/-- Behaviour of one attempted process invocation, as seen through
subprocess.run: completion, wall-clock timeout, failure to start the
executable, or some other raised exception. -/
inductive ProcBehavior where
  | completes (r : RunResult)
  | timesOut (partialOut partialErr : String)
  | failsToStart (msg : String)
  | raises (msg : String)
deriving DecidableEq, Repr

/-- Oracle fixing the behaviour of every possible process invocation:
argument vector and timeout in seconds to behaviour. -/
abbrev ProcOracle := List String → Nat → ProcBehavior

/-- The Python exceptions relevant to the harness: subprocess.TimeoutExpired
(which carries partial output), FileNotFoundError from a missing executable,
and any other Exception (carrying its str rendering).  The first is caught
by a dedicated except clause in both execution functions; the other two are
caught by the generic except Exception clause. -/
inductive PyExn where
  | timeoutExpired (partialOut partialErr : String)
  | fileNotFound (msg : String)
  | other (msg : String)
deriving DecidableEq, Repr

/-- The observable world threaded through an execution: the file paths
currently present on disk and the trace of spawned argument vectors. -/
structure World where
  fs : List String
  trace : List (List String)
deriving DecidableEq, Repr

/-- Writing a file (open(path, w).write or NamedTemporaryFile). -/
def writeFileFs (w : World) (path : String) : World :=
  { w with fs := w.fs ++ [path] }

/-- os.unlink(path): the path is removed from disk. -/
def removePathFs (w : World) (path : String) : World :=
  { w with fs := w.fs.filter (fun p => p ≠ path) }

/-- Boolean string-prefix test used to model directory containment. -/
def strHasPrefix (pre s : String) : Bool :=
  pre.toList.isPrefixOf s.toList

/-- shutil.rmtree(dir, ignore_errors=True): every path below dir is removed. -/
def rmtreeFs (w : World) (dir : String) : World :=
  { w with fs := w.fs.filter (fun p => !(strHasPrefix (dir ++ "/") p)) }

/-- subprocess.run(argv, capture_output=True, text=True, timeout=tmo):
record the attempted invocation and either return the completed result or
raise the exception dictated by the oracle. -/
def runProc (o : ProcOracle) (argv : List String) (tmo : Nat) (w : World) :
    Except PyExn RunResult × World :=
  let w2 := { w with trace := w.trace ++ [argv] }
  match o argv tmo with
  | .completes r => (.ok r, w2)
  | .timesOut p q => (.error (.timeoutExpired p q), w2)
  | .failsToStart m => (.error (.fileNotFound m), w2)
  | .raises m => (.error (.other m), w2)

/-- Python str.lower(): lowercase every character. -/
def pyLower (s : String) : String :=
  String.mk (s.toList.map Char.toLower)

/-- Python str.upper(): uppercase every character. -/
def pyUpper (s : String) : String :=
  String.mk (s.toList.map Char.toUpper)

/-- Python slicing s[:n]: the first n characters. -/
def pyTake (s : String) (n : Nat) : String :=
  String.mk (s.toList.take n)

/-- Split a character list on a separator character. -/
def splitOnChar (sep : Char) : List Char → List (List Char)
  | [] => [[]]
  | c :: cs =>
    let r := splitOnChar sep cs
    if c = sep then [] :: r
    else
      match r with
      | [] => [[c]]
      | h :: t => (c :: h) :: t

/-- Join character-list parts with a separator character between them. -/
def joinWithChar (sep : Char) (parts : List (List Char)) : List Char :=
  (parts.intersperse [sep]).flatten

/-- Replace every occurrence of a nonempty pattern, scanning left to right;
the fuel argument only bounds recursion and is set to the input length. -/
def replaceListAux (pat repl : List Char) : Nat → List Char → List Char
  | _, [] => []
  | 0, s => s
  | fuel + 1, c :: cs =>
    if pat ≠ [] ∧ pat.isPrefixOf (c :: cs) then
      repl ++ replaceListAux pat repl fuel ((c :: cs).drop pat.length)
    else
      c :: replaceListAux pat repl fuel cs

/-- Python str.replace(pat, repl) for a nonempty pattern. -/
def pyReplace (s pat repl : String) : String :=
  String.mk (replaceListAux pat.toList repl.toList s.toList.length s.toList)

/-- Characters matched by the regex class backslash-w. -/
def isWordChar (c : Char) : Bool :=
  c.isAlphanum || c = '_'

/-- Consume at least one whitespace character and then all following
whitespace, as the greedy regex fragment of one-or-more whitespace does
when followed by a non-whitespace literal. -/
def skipWs1 : List Char → Option (List Char)
  | [] => none
  | c :: cs => if c.isWhitespace then some (cs.dropWhile Char.isWhitespace) else none

/-- Match the regex public-whitespace-class-whitespace-word anchored at the
start of the character list, returning the captured word group. -/
def matchPublicClass (cs : List Char) : Option String :=
  if cs.take 6 = "public".toList then
    match skipWs1 (cs.drop 6) with
    | none => none
    | some cs1 =>
      if cs1.take 5 = "class".toList then
        match skipWs1 (cs1.drop 5) with
        | none => none
        | some cs2 =>
          let wrd := cs2.takeWhile isWordChar
          if wrd.isEmpty then none else some (String.mk wrd)
      else none
  else none

/-- re.search over the whole text: try the anchored match at every start
position, leftmost first. -/
def searchPublicClass : List Char → Option String
  | [] => none
  | c :: cs =>
    match matchPublicClass (c :: cs) with
    | some s => some s
    | none => searchPublicClass cs

/-- Java class name extraction of execute_code: the first regex match of a
public class declaration, with Solution as the fallback default. -/
def javaClassName (code : String) : String :=
  (searchPublicClass code.toList).getD "Solution"

/-- Normalized outcome of execute_code, mirroring the returned Python tuple
(stdout, stderr, success). -/
structure ExecTriple where
  stdout : String
  stderr : String
  success : Bool
deriving DecidableEq, Repr

/-- The try-block body of AssignmentSolver.execute_code
(assignment_solver.py lines 240 to 314), threading the world and
propagating any Python exception to the caller of the block. -/
def execute_code_body (o : ProcOracle) (tempDir code language : String)
    (w : World) : Except PyExn ExecTriple × World :=
  let lt := pyLower language
  if lt = "python" then
    let filePath := tempDir ++ "/" ++ "solution.py"
    let w := writeFileFs w filePath
    match runProc o ["python3", filePath] 10 w with
    | (.error e, w) => (.error e, w)
    | (.ok result, w) =>
        (.ok ⟨result.stdout, result.stderr, result.exitCode == 0⟩, w)
  else if lt = "java" then
    let className := javaClassName code
    let filePath := tempDir ++ "/" ++ (className ++ ".java")
    let w := writeFileFs w filePath
    match runProc o ["javac", filePath] 10 w with
    | (.error e, w) => (.error e, w)
    | (.ok compileResult, w) =>
        if compileResult.exitCode ≠ 0 then
          (.ok ⟨"", compileResult.stderr, false⟩, w)
        else
          match runProc o ["java", "-cp", tempDir, className] 10 w with
          | (.error e, w) => (.error e, w)
          | (.ok result, w) =>
              (.ok ⟨result.stdout, result.stderr, result.exitCode == 0⟩, w)
  else if lt = "c++" ∨ lt = "cpp" then
    let filePath := tempDir ++ "/" ++ "solution.cpp"
    let outputPath := tempDir ++ "/" ++ "solution"
    let w := writeFileFs w filePath
    match runProc o ["g++", filePath, "-o", outputPath] 10 w with
    | (.error e, w) => (.error e, w)
    | (.ok compileResult, w) =>
        if compileResult.exitCode ≠ 0 then
          (.ok ⟨"", compileResult.stderr, false⟩, w)
        else
          let w := writeFileFs w outputPath
          match runProc o [outputPath] 10 w with
          | (.error e, w) => (.error e, w)
          | (.ok result, w) =>
              (.ok ⟨result.stdout, result.stderr, result.exitCode == 0⟩, w)
  else
    (.ok ⟨"", "Unsupported language: " ++ language, false⟩, w)

/-- AssignmentSolver.execute_code (assignment_solver.py lines 240 to 323):
tempfile.mkdtemp gives a fresh directory tempDir, the try block runs, the
except clauses map TimeoutExpired to the fixed timeout triple and every
other Exception to its message, and the finally clause removes the
temporary directory unconditionally. -/
def execute_code (o : ProcOracle) (tempDir code language : String) :
    ExecTriple × World :=
  let w0 : World := ⟨[], []⟩
  let bw := execute_code_body o tempDir code language w0
  let w := rmtreeFs bw.2 tempDir
  match bw.1 with
  | .ok t => (t, w)
  | .error (.timeoutExpired _ _) => (⟨"", "Execution timeout", false⟩, w)
  | .error (.fileNotFound m) => (⟨"", m, false⟩, w)
  | .error (.other m) => (⟨"", m, false⟩, w)

/-- pathlib Path(p).stem for the paths appearing here: the final path
component without its last dot suffix. -/
def pathStem (p : String) : String :=
  let name := ((splitOnChar '/' p.toList).getLastD p.toList)
  let parts := splitOnChar '.' name
  if parts.length ≤ 1 then String.mk name
  else String.mk (joinWithChar '.' parts.dropLast)

/-- pathlib Path(p).parent rendered as a string. -/
def pathParent (p : String) : String :=
  let parts := splitOnChar '/' p.toList
  if parts.length ≤ 1 then "."
  else
    let d := String.mk (joinWithChar '/' parts.dropLast)
    if d = "" then "/" else d

/-- The ext_map dictionary of execute_code_and_capture (submit.py line 334)
together with the default used by its get call: the argument is the
already-lowercased language name. -/
def ext_map (language : String) : String :=
  if language = "python" then ".py"
  else if language = "java" then ".java"
  else if language = "c++" then ".cpp"
  else if language = "cpp" then ".cpp"
  else if language = "c" then ".c"
  else ".txt"

/-- The try-block body of AssignmentSolver.execute_code_and_capture
(submit.py lines 332 to 396): create the named temporary file with the
language extension, run the per-language branch to produce output_text
(or raise), then unlink the temporary file and, for C++, the produced
executable.  Note that the unlink calls live inside the try block, after
the branch: an exception raised by the branch skips them. -/
def execute_code_and_capture_body (o : ProcOracle) (tmpBase code language : String)
    (w : World) : Except PyExn String × World :=
  let lt := pyLower language
  let ext := ext_map lt
  let temp_file := tmpBase ++ ext
  let w := writeFileFs w temp_file
  let branch : Except PyExn String × World :=
    if lt = "python" then
      match runProc o ["python3", temp_file] 5 w with
      | (.error e, w) => (.error e, w)
      | (.ok result, w) => (.ok (result.stdout ++ result.stderr), w)
    else if lt = "java" then
      match runProc o ["javac", temp_file] 10 w with
      | (.error e, w) => (.error e, w)
      | (.ok compileResult, w) =>
          if compileResult.exitCode == 0 then
            let class_name := pathStem temp_file
            match runProc o ["java", "-cp", pathParent temp_file, class_name] 5 w with
            | (.error e, w) => (.error e, w)
            | (.ok result, w) => (.ok (result.stdout ++ result.stderr), w)
          else
            (.ok ("Compilation Error:\n" ++ compileResult.stderr), w)
    else if lt = "c++" ∨ lt = "cpp" then
      let exe_file := pyReplace temp_file ".cpp" ".out"
      match runProc o ["g++", temp_file, "-o", exe_file] 10 w with
      | (.error e, w) => (.error e, w)
      | (.ok compileResult, w) =>
          if compileResult.exitCode == 0 then
            let w := writeFileFs w exe_file
            match runProc o [exe_file] 5 w with
            | (.error e, w) => (.error e, w)
            | (.ok result, w) => (.ok (result.stdout ++ result.stderr), w)
          else
            (.ok ("Compilation Error:\n" ++ compileResult.stderr), w)
    else
      (.ok "", w)
  match branch with
  | (.error e, w) => (.error e, w)
  | (.ok output_text, w) =>
      let w := removePathFs w temp_file
      let w :=
        if lt = "c++" ∨ lt = "cpp" then
          let exe_file := pyReplace temp_file ".cpp" ".out"
          if w.fs.contains exe_file then removePathFs w exe_file else w
        else w
      (.ok output_text, w)

/-- The text rendered into the output screenshot by
AssignmentSolver._create_output_screenshot (submit.py lines 408 to 434):
the uppercased language label followed by output_text limited to its first
1000 characters. -/
def create_output_screenshot (output_text language : String) : String :=
  pyUpper language ++ " Output:\n\n" ++ pyTake output_text 1000

/-- AssignmentSolver.execute_code_and_capture (submit.py lines 328 to 406):
run the try block, map TimeoutExpired and every other Exception to their
fixed messages, render the screenshot and return the pair together with
the final world. -/
def execute_code_and_capture (o : ProcOracle) (tmpBase code language : String) :
    String × String × World :=
  let w0 : World := ⟨[], []⟩
  let bw := execute_code_and_capture_body o tmpBase code language w0
  let output_text :=
    match bw.1 with
    | .ok s => s
    | .error (.timeoutExpired _ _) => "Execution timeout (>5 seconds)"
    | .error (.fileNotFound m) => "Execution error: " ++ m
    | .error (.other m) => "Execution error: " ++ m
  (output_text, create_output_screenshot output_text language, bw.2)

/-- Static per-language execution recipe, read off the per-language branch
of execute_code: source file extension, optional compile command (source
path and output location), run command (working directory or output
location and entry name), and the per-step timeout in seconds. -/
structure LanguageRecipe where
  ext : String
  compileArgv : Option (String → String → List String)
  runArgv : String → String → List String
  stepTimeout : Nat

/-- Recipe of the python branch of execute_code. -/
def pythonRecipe : LanguageRecipe :=
  ⟨".py", none, fun src _ => ["python3", src], 10⟩

/-- Recipe of the java branch of execute_code. -/
def javaRecipe : LanguageRecipe :=
  ⟨".java", some (fun src _ => ["javac", src]),
    fun dir cls => ["java", "-cp", dir, cls], 10⟩

/-- Recipe of the C++ branch of execute_code. -/
def cppRecipe : LanguageRecipe :=
  ⟨".cpp", some (fun src out => ["g++", src, "-o", out]),
    fun _ out => [out], 10⟩

/-- Language resolution as performed by the branch dispatch of
execute_code: lowercase the declared name and compare against the
supported names, where the C++ recipe is reached from both spellings. -/
def resolveRecipe (language : String) : Option LanguageRecipe :=
  let lt := pyLower language
  if lt = "python" then some pythonRecipe
  else if lt = "java" then some javaRecipe
  else if lt = "c++" ∨ lt = "cpp" then some cppRecipe
  else none

/-- One remote student submission record as read by
check_submission_status: the lifecycle state string and the submission id,
each defaulting to the empty string when the field is missing. -/
structure StudentSubmission where
  state : String
  id : String
deriving DecidableEq, Repr

/-- An HttpError raised by the remote classroom service. -/
structure ClassroomHttpError where
  msg : String
deriving DecidableEq, Repr

/-- AssignmentSolver.check_submission_status (submit.py lines 197 to 219):
the remote list call either raises an HttpError, which is caught and
mapped to (False, None), or returns the list of submission records; an
empty list gives (False, None) and otherwise the first record is read,
with is_submitted true exactly for the TURNED_IN and RETURNED states. -/
def check_submission_status
    (resp : Except ClassroomHttpError (List StudentSubmission)) :
    Bool × Option String :=
  match resp with
  | .error _ => (false, none)
  | .ok student_submissions =>
    match student_submissions with
    | [] => (false, none)
    | submission :: _ =>
        let is_submitted :=
          submission.state == "TURNED_IN" || submission.state == "RETURNED"
        (is_submitted, some submission.id)

/-- Python truthiness of the submission id value flowing into the detect
command: None and the empty string are falsy. -/
def pyFalsyId : Option String → Bool
  | none => true
  | some s => s == ""

/-- The submission gate of the detect command (submit.py lines 687 to 695):
skip the assignment when it is already submitted and skip_submitted is
set, or when no usable submission id was obtained; otherwise proceed with
the obtained submission id. -/
def detect_gate (skip_submitted : Bool)
    (resp : Except ClassroomHttpError (List StudentSubmission)) :
    Bool × Option String :=
  let r := check_submission_status resp
  if r.1 && skip_submitted then (false, r.2)
  else if pyFalsyId r.2 then (false, r.2)
  else (true, r.2)

/-- C9: Language lookup is case-insensitive and alias-tolerant: the
declared names C++, cpp and c++ all resolve to the identical recipe (same
file extension, same compile command, same run command), and running
identical source text under any of the three names produces equal
execution behaviour in both execution functions (for
execute_code_and_capture, the same output text and the same filesystem
and process effects). -/
theorem C9_cpp_alias_resolution :
    resolveRecipe "C++" = resolveRecipe "cpp"
  ∧ resolveRecipe "cpp" = resolveRecipe "c++"
  ∧ resolveRecipe "C++" = some cppRecipe
  ∧ ext_map (pyLower "C++") = ext_map (pyLower "cpp")
  ∧ ext_map (pyLower "cpp") = ext_map (pyLower "c++")
  ∧ (∀ (o : ProcOracle) (d code : String),
      execute_code o d code "C++" = execute_code o d code "cpp"
      ∧ execute_code o d code "cpp" = execute_code o d code "c++")
  ∧ (∀ (o : ProcOracle) (tb code : String),
      (execute_code_and_capture o tb code "C++").1
        = (execute_code_and_capture o tb code "cpp").1
      ∧ (execute_code_and_capture o tb code "cpp").1
        = (execute_code_and_capture o tb code "c++").1
      ∧ (execute_code_and_capture o tb code "C++").2.2
        = (execute_code_and_capture o tb code "cpp").2.2
      ∧ (execute_code_and_capture o tb code "cpp").2.2
        = (execute_code_and_capture o tb code "c++").2.2) :=
  ⟨rfl, rfl, rfl, rfl, rfl, fun _ _ _ => ⟨rfl, rfl⟩, fun _ _ _ => ⟨rfl, rfl, rfl, rfl⟩⟩

/-- C2 evaluation at the failing input: when the spawned python3 process
exceeds its timeout, execute_code_and_capture returns the timeout message
but the temporary source file it created is still on disk when the
function returns, because the os.unlink cleanup sits inside the try block
and is skipped when TimeoutExpired is raised.  This contradicts the
removal-on-every-exit-path invariant claimed for the execution layer. -/
theorem C2_capture_timeout_leaves_tempfile :
    (execute_code_and_capture (fun _ _ => .timesOut "" "") "/tmp/tmpq1w2"
        "while True: pass" "python").1 = "Execution timeout (>5 seconds)"
  ∧ (execute_code_and_capture (fun _ _ => .timesOut "" "") "/tmp/tmpq1w2"
        "while True: pass" "python").2.2.fs = ["/tmp/tmpq1w2.py"] :=
  ⟨rfl, rfl⟩

/-- C7 counterexample: for the unsupported language ruby,
execute_code_and_capture returns the empty output text with no
unsupported-language message, identical to the output text of a
successful python run that prints nothing, so the claimed descriptive
message and distinguishability fail for this execution operation. -/
theorem C7_counterexample_capture_silent_unsupported :
    (execute_code_and_capture (fun _ _ => .completes ⟨0, "", ""⟩) "/tmp/tmpA"
        "x = 1" "ruby").1 = ""
  ∧ (execute_code_and_capture (fun _ _ => .completes ⟨0, "", ""⟩) "/tmp/tmpA"
        "x = 1" "ruby").1
      = (execute_code_and_capture (fun _ _ => .completes ⟨0, "", ""⟩) "/tmp/tmpA"
        "x = 1" "python").1
  ∧ (execute_code_and_capture (fun _ _ => .completes ⟨0, "", ""⟩) "/tmp/tmpA"
        "x = 1" "ruby").2.2.trace = [] :=
  ⟨rfl, rfl, rfl⟩

/-- C4 counterexample: execute_code_and_capture does not carry stdout and
stderr as two separate texts: two processes with different stdout/stderr
pairs but the same concatenation produce identical results, so the two
streams are merged at this execution layer. -/
theorem C4_counterexample_capture_merges_streams :
    execute_code_and_capture (fun _ _ => .completes ⟨0, "ab", ""⟩)
        "/tmp/t" "print()" "python"
      = execute_code_and_capture (fun _ _ => .completes ⟨0, "a", "b"⟩)
        "/tmp/t" "print()" "python"
  ∧ (RunResult.mk 0 "ab" "" ≠ RunResult.mk 0 "a" "b") :=
  ⟨rfl, by decide⟩

/-- Evaluation lemma: lowercasing the literal python is the identity. -/
theorem pyLower_python : pyLower "python" = "python" := rfl

/-- Evaluation lemma: lowercasing the literal java is the identity. -/
theorem pyLower_java : pyLower "java" = "java" := rfl

/-- Evaluation lemma: lowercasing the lowercase C++ spelling is the identity. -/
theorem pyLower_cpp_sym : pyLower "c++" = "c++" := rfl

/-- Evaluation lemma: lowercasing the cpp alias is the identity. -/
theorem pyLower_cpp_alias : pyLower "cpp" = "cpp" := rfl

/-- Evaluation lemma: the extension chosen for python sources. -/
theorem ext_map_python : ext_map "python" = ".py" := rfl

/-- Evaluation lemma: the extension chosen for java sources. -/
theorem ext_map_java : ext_map "java" = ".java" := rfl

/-- Evaluation lemma: the extension chosen for C++ sources. -/
theorem ext_map_cpp : ext_map "c++" = ".cpp" := rfl

/-- C1: For every source text and declared language, a single call to
execute_code or execute_code_and_capture returns exactly one normalized
result, and every failure mode is captured as a non-succeeding result
rather than an escaping exception: the success flag of execute_code can
be true only when the last spawned process completed with exit code zero
and the result carries its output, any exception raised inside the
execute_code try block yields success false, and any exception raised
inside the execute_code_and_capture try block yields the corresponding
fixed handler message as the single returned output text. -/
theorem C1_single_result_and_failures_nonsucceeding
    (o : ProcOracle) (d tb code language : String) :
    ((execute_code o d code language).1.success = true →
      ∃ r : RunResult,
        o ((execute_code o d code language).2.trace.getLastD []) 10 = .completes r
        ∧ r.exitCode = 0
        ∧ (execute_code o d code language).1.stdout = r.stdout
        ∧ (execute_code o d code language).1.stderr = r.stderr)
  ∧ (∀ e : PyExn, (execute_code_body o d code language ⟨[], []⟩).1 = .error e →
      (execute_code o d code language).1.success = false)
  ∧ (∀ p q, (execute_code_and_capture_body o tb code language ⟨[], []⟩).1
        = .error (.timeoutExpired p q) →
      (execute_code_and_capture o tb code language).1 = "Execution timeout (>5 seconds)")
  ∧ (∀ m, (execute_code_and_capture_body o tb code language ⟨[], []⟩).1
        = .error (.fileNotFound m) →
      (execute_code_and_capture o tb code language).1 = "Execution error: " ++ m)
  ∧ (∀ m, (execute_code_and_capture_body o tb code language ⟨[], []⟩).1
        = .error (.other m) →
      (execute_code_and_capture o tb code language).1 = "Execution error: " ++ m) := by
  refine ⟨?_, ?_, ?_, ?_, ?_⟩
  · intro hs
    by_cases hp : pyLower language = "python"
    · cases hb : o ["python3", d ++ "/" ++ "solution.py"] 10 with
      | completes r =>
        simp only [execute_code, execute_code_body, runProc, hp, hb] at hs ⊢
        simp at hs ⊢
        exact ⟨r, hb, by simpa using hs, rfl, rfl⟩
      | timesOut p q =>
        exfalso; simp [execute_code, execute_code_body, runProc, hp, hb] at hs
      | failsToStart m =>
        exfalso; simp [execute_code, execute_code_body, runProc, hp, hb] at hs
      | raises m =>
        exfalso; simp [execute_code, execute_code_body, runProc, hp, hb] at hs
    · by_cases hj : pyLower language = "java"
      · cases hbc : o ["javac", d ++ "/" ++ (javaClassName code ++ ".java")] 10 with
        | completes c =>
          by_cases hc0 : c.exitCode = 0
          · cases hbr : o ["java", "-cp", d, javaClassName code] 10 with
            | completes r =>
              simp only [execute_code, execute_code_body, runProc, hp, hj, hbc, hc0, hbr] at hs ⊢
              simp at hs ⊢
              exact ⟨r, hbr, by simpa using hs, rfl, rfl⟩
            | timesOut p q =>
              exfalso
              simp [execute_code, execute_code_body, runProc, hp, hj, hbc, hc0, hbr] at hs
            | failsToStart m =>
              exfalso
              simp [execute_code, execute_code_body, runProc, hp, hj, hbc, hc0, hbr] at hs
            | raises m =>
              exfalso
              simp [execute_code, execute_code_body, runProc, hp, hj, hbc, hc0, hbr] at hs
          · exfalso
            simp [execute_code, execute_code_body, runProc, hp, hj, hbc, hc0] at hs
        | timesOut p q =>
          exfalso; simp [execute_code, execute_code_body, runProc, hp, hj, hbc] at hs
        | failsToStart m =>
          exfalso; simp [execute_code, execute_code_body, runProc, hp, hj, hbc] at hs
        | raises m =>
          exfalso; simp [execute_code, execute_code_body, runProc, hp, hj, hbc] at hs
      · by_cases hcp : pyLower language = "c++" ∨ pyLower language = "cpp"
        · cases hbc : o ["g++", d ++ "/" ++ "solution.cpp", "-o", d ++ "/" ++ "solution"] 10 with
          | completes c =>
            by_cases hc0 : c.exitCode = 0
            · cases hbr : o [d ++ "/" ++ "solution"] 10 with
              | completes r =>
                simp only [execute_code, execute_code_body, runProc, hp, hj, hcp, hbc, hc0,
                  hbr] at hs ⊢
                simp at hs ⊢
                exact ⟨r, hbr, by simpa using hs, rfl, rfl⟩
              | timesOut p q =>
                exfalso
                simp [execute_code, execute_code_body, runProc, hp, hj, hcp, hbc, hc0, hbr] at hs
              | failsToStart m =>
                exfalso
                simp [execute_code, execute_code_body, runProc, hp, hj, hcp, hbc, hc0, hbr] at hs
              | raises m =>
                exfalso
                simp [execute_code, execute_code_body, runProc, hp, hj, hcp, hbc, hc0, hbr] at hs
            · exfalso
              simp [execute_code, execute_code_body, runProc, hp, hj, hcp, hbc, hc0] at hs
          | timesOut p q =>
            exfalso; simp [execute_code, execute_code_body, runProc, hp, hj, hcp, hbc] at hs
          | failsToStart m =>
            exfalso; simp [execute_code, execute_code_body, runProc, hp, hj, hcp, hbc] at hs
          | raises m =>
            exfalso; simp [execute_code, execute_code_body, runProc, hp, hj, hcp, hbc] at hs
        · exfalso
          simp [execute_code, execute_code_body, runProc, hp, hj, hcp] at hs
  · intro e he
    rcases hbw : execute_code_body o d code language ⟨[], []⟩ with ⟨res, w⟩
    rw [hbw] at he
    simp only at he
    subst he
    cases e <;> simp [execute_code, hbw]
  · intro p q he
    rcases hbw : execute_code_and_capture_body o tb code language ⟨[], []⟩ with ⟨res, w⟩
    rw [hbw] at he
    simp only at he
    subst he
    simp [execute_code_and_capture, hbw]
  · intro m he
    rcases hbw : execute_code_and_capture_body o tb code language ⟨[], []⟩ with ⟨res, w⟩
    rw [hbw] at he
    simp only at he
    subst he
    simp [execute_code_and_capture, hbw]
  · intro m he
    rcases hbw : execute_code_and_capture_body o tb code language ⟨[], []⟩ with ⟨res, w⟩
    rw [hbw] at he
    simp only at he
    subst he
    simp [execute_code_and_capture, hbw]

/-- Witness for C1 at a concrete input: a python run that exceeds its
timeout yields a non-succeeding result. -/
theorem C1_witness_timeout_nonsucceeding :
    (execute_code (fun _ _ => .timesOut "" "") "/w" "x" "python").1.success = false :=
  (C1_single_result_and_failures_nonsucceeding
    (fun _ _ => .timesOut "" "") "/w" "/t" "x" "python").2.1 (.timeoutExpired "" "") rfl

/-- C3: For every compiled-language source unit (java or C++) whose
compile step completes with a non-zero exit code, the run step is never
attempted (the spawn trace holds exactly the compile invocation), the
execute_code result has success false with empty stdout and the compiler
diagnostics verbatim as its stderr, and the execute_code_and_capture
output text is the Compilation Error banner followed by the diagnostics
verbatim. -/
theorem C3_compile_failure_skips_run (o : ProcOracle) (d tb code : String)
    (cr : RunResult) (hne : cr.exitCode ≠ 0) :
    (o ["javac", d ++ "/" ++ (javaClassName code ++ ".java")] 10 = .completes cr →
        (execute_code o d code "java").1 = ⟨"", cr.stderr, false⟩
      ∧ (execute_code o d code "java").2.trace
          = [["javac", d ++ "/" ++ (javaClassName code ++ ".java")]])
  ∧ (o ["g++", d ++ "/" ++ "solution.cpp", "-o", d ++ "/" ++ "solution"] 10 = .completes cr →
        (execute_code o d code "c++").1 = ⟨"", cr.stderr, false⟩
      ∧ (execute_code o d code "c++").2.trace
          = [["g++", d ++ "/" ++ "solution.cpp", "-o", d ++ "/" ++ "solution"]])
  ∧ (o ["javac", tb ++ ".java"] 10 = .completes cr →
        (execute_code_and_capture o tb code "java").1 = "Compilation Error:\n" ++ cr.stderr
      ∧ (execute_code_and_capture o tb code "java").2.2.trace = [["javac", tb ++ ".java"]])
  ∧ (o ["g++", tb ++ ".cpp", "-o", pyReplace (tb ++ ".cpp") ".cpp" ".out"] 10 = .completes cr →
        (execute_code_and_capture o tb code "c++").1 = "Compilation Error:\n" ++ cr.stderr
      ∧ (execute_code_and_capture o tb code "c++").2.2.trace
          = [["g++", tb ++ ".cpp", "-o", pyReplace (tb ++ ".cpp") ".cpp" ".out"]]) := by
  refine ⟨?_, ?_, ?_, ?_⟩
  · intro h
    constructor
    · simp [execute_code, execute_code_body, runProc, pyLower_java, h, hne]
    · simp [execute_code, execute_code_body, runProc, rmtreeFs, writeFileFs,
        pyLower_java, h, hne]
  · intro h
    constructor
    · simp [execute_code, execute_code_body, runProc, pyLower_cpp_sym, h, hne]
    · simp [execute_code, execute_code_body, runProc, rmtreeFs, writeFileFs,
        pyLower_cpp_sym, h, hne]
  · intro h
    constructor
    · simp [execute_code_and_capture, execute_code_and_capture_body, runProc,
        pyLower_java, ext_map_java, h, hne]
    · simp [execute_code_and_capture, execute_code_and_capture_body, runProc,
        removePathFs, writeFileFs, pyLower_java, ext_map_java, h, hne]
  · intro h
    constructor
    · simp [execute_code_and_capture, execute_code_and_capture_body, runProc,
        pyLower_cpp_sym, ext_map_cpp, h, hne]
    · simp [execute_code_and_capture, execute_code_and_capture_body, runProc,
        removePathFs, writeFileFs, pyLower_cpp_sym, ext_map_cpp, h, hne]

/-- Witness for C3 at a concrete input: a failing javac invocation with
diagnostics boom yields the failed triple with the diagnostics as stderr. -/
theorem C3_witness_java_diagnostics :
    (execute_code (fun _ _ => .completes ⟨1, "", "boom"⟩) "/w" "public class A" "java").1
      = ⟨"", "boom", false⟩ :=
  ((C3_compile_failure_skips_run (fun _ _ => .completes ⟨1, "", "boom"⟩)
    "/w" "/t" "public class A" ⟨1, "", "boom"⟩ (by decide)).1 rfl).1

/-- C4 as amended: for every source unit whose process runs to completion,
execute_code returns success equal to the exit code being zero together
with the captured stdout and stderr verbatim as two separate untruncated
texts, while execute_code_and_capture instead returns the single text
obtained by concatenating stdout and stderr (the two streams are merged,
each untruncated, and no separate success flag exists at that layer). -/
theorem C4_amended_verbatim_streams (o : ProcOracle) (d tb code : String) :
    (∀ r : RunResult, o ["python3", d ++ "/" ++ "solution.py"] 10 = .completes r →
        (execute_code o d code "python").1 = ⟨r.stdout, r.stderr, r.exitCode == 0⟩)
  ∧ (∀ c r : RunResult,
        o ["javac", d ++ "/" ++ (javaClassName code ++ ".java")] 10 = .completes c →
        c.exitCode = 0 →
        o ["java", "-cp", d, javaClassName code] 10 = .completes r →
        (execute_code o d code "java").1 = ⟨r.stdout, r.stderr, r.exitCode == 0⟩)
  ∧ (∀ c r : RunResult,
        o ["g++", d ++ "/" ++ "solution.cpp", "-o", d ++ "/" ++ "solution"] 10 = .completes c →
        c.exitCode = 0 →
        o [d ++ "/" ++ "solution"] 10 = .completes r →
        (execute_code o d code "c++").1 = ⟨r.stdout, r.stderr, r.exitCode == 0⟩)
  ∧ (∀ r : RunResult, o ["python3", tb ++ ".py"] 5 = .completes r →
        (execute_code_and_capture o tb code "python").1 = r.stdout ++ r.stderr)
  ∧ (∀ c r : RunResult,
        o ["javac", tb ++ ".java"] 10 = .completes c → c.exitCode = 0 →
        o ["java", "-cp", pathParent (tb ++ ".java"), pathStem (tb ++ ".java")] 5
          = .completes r →
        (execute_code_and_capture o tb code "java").1 = r.stdout ++ r.stderr)
  ∧ (∀ c r : RunResult,
        o ["g++", tb ++ ".cpp", "-o", pyReplace (tb ++ ".cpp") ".cpp" ".out"] 10
          = .completes c →
        c.exitCode = 0 →
        o [pyReplace (tb ++ ".cpp") ".cpp" ".out"] 5 = .completes r →
        (execute_code_and_capture o tb code "c++").1 = r.stdout ++ r.stderr) := by
  refine ⟨?_, ?_, ?_, ?_, ?_, ?_⟩
  · intro r h
    simp [execute_code, execute_code_body, runProc, pyLower_python, h]
  · intro c r hc hc0 hr
    simp [execute_code, execute_code_body, runProc, pyLower_java, hc, hr, hc0]
  · intro c r hc hc0 hr
    simp [execute_code, execute_code_body, runProc, pyLower_cpp_sym, hc, hr, hc0]
  · intro r h
    simp [execute_code_and_capture, execute_code_and_capture_body, runProc,
      pyLower_python, ext_map_python, h]
  · intro c r hc hc0 hr
    simp [execute_code_and_capture, execute_code_and_capture_body, runProc,
      pyLower_java, ext_map_java, hc, hr, hc0]
  · intro c r hc hc0 hr
    simp [execute_code_and_capture, execute_code_and_capture_body, runProc,
      pyLower_cpp_sym, ext_map_cpp, hc, hr, hc0]

/-- Witness for the amended C4 at a concrete input: a python process that
completes with exit code three, stdout A and stderr B gives the separate
failed triple from execute_code and the merged text AB from
execute_code_and_capture. -/
theorem C4_amended_witness_nonzero_exit :
    (execute_code (fun _ _ => .completes ⟨3, "A", "B"⟩) "/w" "x" "python").1
      = ⟨"A", "B", false⟩
  ∧ (execute_code_and_capture (fun _ _ => .completes ⟨3, "A", "B"⟩) "/t" "x" "python").1
      = "AB" := by
  have h := C4_amended_verbatim_streams (fun _ _ => .completes ⟨3, "A", "B"⟩) "/w" "/t" "x"
  exact ⟨(h.1 ⟨3, "A", "B"⟩ rfl).trans (by decide),
    (h.2.2.2.1 ⟨3, "A", "B"⟩ rfl).trans (by decide)⟩

/-- C5: For every invocation whose spawned process exceeds its timeout,
the process runner raises the distinguished TimeoutExpired outcome, which
differs from every completed-process outcome and from every other
exception, so a caller can tell a run that ran too long apart from a run
that crashed; the dedicated except clause of each execution function then
maps it to its fixed timeout result, discarding any partial output rather
than returning partial output with a generic error. -/
theorem C5_timeout_distinguished_outcome (o : ProcOracle) (argv : List String)
    (tmo : Nat) (w : World) (pout perr d tb code : String)
    (h : o argv tmo = .timesOut pout perr) :
    (runProc o argv tmo w).1 = .error (.timeoutExpired pout perr)
  ∧ (∀ r : RunResult, (runProc o argv tmo w).1 ≠ .ok r)
  ∧ (∀ m, (runProc o argv tmo w).1 ≠ .error (.fileNotFound m))
  ∧ (∀ m, (runProc o argv tmo w).1 ≠ .error (.other m))
  ∧ (o ["python3", d ++ "/" ++ "solution.py"] 10 = .timesOut pout perr →
      (execute_code o d code "python").1 = ⟨"", "Execution timeout", false⟩)
  ∧ (o ["python3", tb ++ ".py"] 5 = .timesOut pout perr →
      (execute_code_and_capture o tb code "python").1 = "Execution timeout (>5 seconds)") := by
  refine ⟨?_, ?_, ?_, ?_, ?_, ?_⟩
  · simp [runProc, h]
  · intro r; simp [runProc, h]
  · intro m; simp [runProc, h]
  · intro m; simp [runProc, h]
  · intro h2
    simp [execute_code, execute_code_body, runProc, pyLower_python, h2]
  · intro h2
    simp [execute_code_and_capture, execute_code_and_capture_body, runProc,
      pyLower_python, ext_map_python, h2]

/-- Witness for C5 at a concrete input: a timed-out python run produces
the TimeoutExpired runner outcome and the fixed non-succeeding triple
without the partial output. -/
theorem C5_witness_timeout_sentinel :
    (runProc (fun _ _ => .timesOut "partial" "junk")
        ["python3", "/w" ++ "/" ++ "solution.py"] 10 ⟨[], []⟩).1
      = .error (.timeoutExpired "partial" "junk")
  ∧ (execute_code (fun _ _ => .timesOut "partial" "junk") "/w" "x" "python").1
      = ⟨"", "Execution timeout", false⟩ := by
  have h := C5_timeout_distinguished_outcome (fun _ _ => .timesOut "partial" "junk")
    ["python3", "/w" ++ "/" ++ "solution.py"] 10 ⟨[], []⟩ "partial" "junk" "/w" "/t" "x" rfl
  exact ⟨h.1, h.2.2.2.2.1 rfl⟩

/-- C6: For every invocation where the toolchain process cannot be started,
the process runner raises the distinguished FileNotFoundError outcome,
distinct from the Timeout outcome and from every completed process (hence
from compile failures and non-zero-exit runtime failures, which are
completed processes); execute_code surfaces it as a non-succeeding result
carrying the error message, without attempting further steps. -/
theorem C6_toolchain_unavailable_distinguished (o : ProcOracle) (argv : List String)
    (tmo : Nat) (w : World) (msg d tb code : String)
    (h : o argv tmo = .failsToStart msg) :
    (runProc o argv tmo w).1 = .error (.fileNotFound msg)
  ∧ (∀ p q, (runProc o argv tmo w).1 ≠ .error (.timeoutExpired p q))
  ∧ (∀ r : RunResult, (runProc o argv tmo w).1 ≠ .ok r)
  ∧ (o ["javac", d ++ "/" ++ (javaClassName code ++ ".java")] 10 = .failsToStart msg →
      (execute_code o d code "java").1 = ⟨"", msg, false⟩
      ∧ (execute_code o d code "java").2.trace
          = [["javac", d ++ "/" ++ (javaClassName code ++ ".java")]])
  ∧ (o ["python3", tb ++ ".py"] 5 = .failsToStart msg →
      (execute_code_and_capture o tb code "python").1 = "Execution error: " ++ msg) := by
  refine ⟨?_, ?_, ?_, ?_, ?_⟩
  · simp [runProc, h]
  · intro p q; simp [runProc, h]
  · intro r; simp [runProc, h]
  · intro h2
    constructor
    · simp [execute_code, execute_code_body, runProc, pyLower_java, h2]
    · simp [execute_code, execute_code_body, runProc, rmtreeFs, writeFileFs,
        pyLower_java, h2]
  · intro h2
    simp [execute_code_and_capture, execute_code_and_capture_body, runProc,
      pyLower_python, ext_map_python, h2]

/-- Witness for C6 at a concrete input: a missing javac binary produces
the FileNotFoundError runner outcome and a failed execute_code result
carrying the error message. -/
theorem C6_witness_missing_javac :
    (runProc (fun _ _ => .failsToStart "No such file or directory: javac")
        ["javac", "/w" ++ "/" ++ (javaClassName "x" ++ ".java")] 10 ⟨[], []⟩).1
      = .error (.fileNotFound "No such file or directory: javac")
  ∧ (execute_code (fun _ _ => .failsToStart "No such file or directory: javac")
        "/w" "x" "java").1
      = ⟨"", "No such file or directory: javac", false⟩ := by
  have h := C6_toolchain_unavailable_distinguished
    (fun _ _ => .failsToStart "No such file or directory: javac")
    ["javac", "/w" ++ "/" ++ (javaClassName "x" ++ ".java")] 10 ⟨[], []⟩
    "No such file or directory: javac" "/w" "/t" "x" rfl
  exact ⟨h.1, (h.2.2.2.1 rfl).1⟩

/-- C7 as amended: for every declared language outside the supported set,
neither execution function performs any compile or run step; execute_code
returns the uniform non-succeeding result carrying the descriptive
unsupported-language message, while execute_code_and_capture merely
returns the empty output text with no message, a result indistinguishable
from a successful run that prints nothing. -/
theorem C7_amended_unsupported_language (o : ProcOracle) (d tb code language : String)
    (h : pyLower language ≠ "python" ∧ pyLower language ≠ "java"
       ∧ pyLower language ≠ "c++" ∧ pyLower language ≠ "cpp") :
    (execute_code o d code language).1
      = ⟨"", "Unsupported language: " ++ language, false⟩
  ∧ (execute_code o d code language).2.trace = []
  ∧ (execute_code_and_capture o tb code language).1 = ""
  ∧ (execute_code_and_capture o tb code language).2.2.trace = [] := by
  obtain ⟨h1, h2, h3, h4⟩ := h
  unfold execute_code execute_code_body execute_code_and_capture execute_code_and_capture_body
  simp [h1, h2, h3, h4, rmtreeFs, writeFileFs, removePathFs]

/-- Witness for the amended C7 at a concrete input: the language ruby is
unsupported, execute_code reports it descriptively and
execute_code_and_capture spawns nothing. -/
theorem C7_amended_witness_ruby :
    (execute_code (fun _ _ => .completes ⟨0, "", ""⟩) "/w" "y" "ruby").1
      = ⟨"", "Unsupported language: " ++ "ruby", false⟩
  ∧ (execute_code_and_capture (fun _ _ => .completes ⟨0, "", ""⟩) "/t" "y" "ruby").2.2.trace
      = [] := by
  have h := C7_amended_unsupported_language (fun _ _ => .completes ⟨0, "", ""⟩)
    "/w" "/t" "y" "ruby" (by decide)
  exact ⟨h.1, h.2.2.2⟩

/-- C8: The submission check is a function of the returned record list:
an empty list yields proceed false with the submission id absent (none is
ever fabricated); when the authoritative (first) record has state
TURNED_IN or RETURNED and skip-if-submitted is enabled the gate yields
proceed false; otherwise, given that the record carries a submission id,
the gate yields proceed true with exactly that id. -/
theorem C8_submission_gate (skip : Bool) (s : StudentSubmission)
    (rest : List StudentSubmission) :
    detect_gate skip (.ok []) = (false, none)
  ∧ check_submission_status (.ok []) = (false, none)
  ∧ ((s.state = "TURNED_IN" ∨ s.state = "RETURNED") → skip = true →
      (detect_gate skip (.ok (s :: rest))).1 = false)
  ∧ (¬ ((s.state = "TURNED_IN" ∨ s.state = "RETURNED") ∧ skip = true) →
      s.id ≠ "" →
      detect_gate skip (.ok (s :: rest)) = (true, some s.id)) := by
  refine ⟨rfl, rfl, ?_, ?_⟩
  · intro hst hsk
    subst hsk
    rcases hst with h | h <;>
      simp [detect_gate, check_submission_status, pyFalsyId, h]
  · intro hn hid
    by_cases hsk : skip = true
    · subst hsk
      simp only [not_and] at hn
      have h1 : s.state ≠ "TURNED_IN" := by
        intro he; exact (hn (Or.inl he)) trivial
      have h2 : s.state ≠ "RETURNED" := by
        intro he; exact (hn (Or.inr he)) trivial
      simp [detect_gate, check_submission_status, pyFalsyId, h1, h2, hid]
    · have hsk2 : skip = false := by
        cases skip
        · rfl
        · exact absurd rfl hsk
      subst hsk2
      simp [detect_gate, check_submission_status, pyFalsyId, hid]

/-- Witness for C8 at concrete inputs: a TURNED_IN record with skip
enabled is skipped, the same record with skip disabled proceeds with its
id, and an empty record list is skipped with no id. -/
theorem C8_witness_gate :
    (detect_gate true (.ok [⟨"TURNED_IN", "sub1"⟩])).1 = false
  ∧ detect_gate false (.ok [⟨"TURNED_IN", "sub1"⟩]) = (true, some "sub1")
  ∧ detect_gate true (.ok []) = (false, none) := by
  refine ⟨?_, ?_, ?_⟩
  · exact (C8_submission_gate true ⟨"TURNED_IN", "sub1"⟩ []).2.2.1 (Or.inl rfl) rfl
  · exact (C8_submission_gate false ⟨"TURNED_IN", "sub1"⟩ []).2.2.2 (by decide) (by decide)
  · exact (C8_submission_gate true ⟨"TURNED_IN", "sub1"⟩ []).1

/-- C10: Every HttpError raised while listing student submissions is
caught by check_submission_status and mapped to the pair of false and
none, the same value returned when no submission record exists, and the
detect gate therefore skips the assignment because the submission id is
absent. -/
theorem C10_http_error_like_no_record (e : ClassroomHttpError) (skip : Bool) :
    check_submission_status (.error e) = (false, none)
  ∧ check_submission_status (.error e) = check_submission_status (.ok [])
  ∧ detect_gate skip (.error e) = (false, none) :=
  ⟨rfl, rfl, rfl⟩
